import Mathlib

/-!
Verification of the content-safety filtering and prompt-construction pipeline
of the animal-story studio application: the content filter
(src/services/contentFilter.ts), the prompt builder and generation client
(src/services/imageGeneration.ts), the generation gateway (the serverless
handler in api/generate-image.ts), and the persistence export/import layer
(src/services/database.ts), shallowly embedded as executable Lean functions.

JavaScript strings are modelled as Lean `String`; `undefined`-able fields as
`Option`; JavaScript truthiness of a string is `s ≠ ""` and of an optional
string `o.getD "" ≠ ""`.  `String.prototype.toLowerCase` is modelled as a
character-wise `Char.toLower` map (every blocklist term is ASCII, where the
two coincide).  `String.prototype.includes` is substring containment on the
character lists.  The HTTP/fetch boundary is abstracted by outcome oracles:
one outcome value per upstream request, carrying status, parsed error
message and extracted image, exactly the data the source inspects.
-/

namespace AnimalWorld

/-- JS truthiness of a string-valued expression: `""` is falsy. -/
def strTruthy (s : String) : Bool := s != ""

/-- JS truthiness of a possibly-`undefined` string: `undefined` and `""` are falsy. -/
def jsTruthy (o : Option String) : Bool := strTruthy (o.getD (""))

/-- Model of `String.prototype.toLowerCase` (character-wise; the source only
compares against ASCII blocklist terms, where JS and `Char.toLower` agree). -/
def toLowerStr (s : String) : String := String.mk (s.data.map Char.toLower)

/-- Boolean infix test on character lists: `pat` occurs contiguously in `s`. -/
def infixBool (pat : List Char) : List Char → Bool
  | [] => pat.isEmpty
  | c :: rest => pat.isPrefixOf (c :: rest) || infixBool pat rest

/-- Model of `String.prototype.includes`: substring containment. -/
def strContains (s pat : String) : Bool := infixBool pat.data s.data

-- ============================================
-- Data model (src/types/index.ts)
-- ============================================

/-- `AnimalMode` from src/types/index.ts. -/
inductive AnimalMode where
  | dream
  | toy
deriving DecidableEq

/-- `Species` from src/types/index.ts. -/
inductive Species where
  | Horse | Cow | Pig | Sheep | Chicken | Cat | Dog | Goat | Bunny | Duck | Other
deriving DecidableEq

/-- The string literal of each `Species` union member. -/
def speciesStr : Species → String
  | .Horse => "Horse"
  | .Cow => "Cow"
  | .Pig => "Pig"
  | .Sheep => "Sheep"
  | .Chicken => "Chicken"
  | .Cat => "Cat"
  | .Dog => "Dog"
  | .Goat => "Goat"
  | .Bunny => "Bunny"
  | .Duck => "Duck"
  | .Other => "Other"

/-- `Personality` from src/types/index.ts. -/
inductive Personality where
  | Brave | Kind | Silly | Curious | Calm | Adventurous | Gentle | Playful
deriving DecidableEq

/-- The string literal of each `Personality` union member. -/
def personalityStr : Personality → String
  | .Brave => "Brave"
  | .Kind => "Kind"
  | .Silly => "Silly"
  | .Curious => "Curious"
  | .Calm => "Calm"
  | .Adventurous => "Adventurous"
  | .Gentle => "Gentle"
  | .Playful => "Playful"

/-- `Location` from src/types/index.ts. -/
inductive Location where
  | Stable | Barn | Pasture | Meadow | ForestTrail | RidingArena | WinterField
  | River | MountainPath | CozyFarm
deriving DecidableEq

/-- `AnimalColors` from src/types/index.ts (`secondary` is a required string,
`markings` is optional). -/
structure AnimalColors where
  primary : String
  secondary : String
  markings : Option String
deriving DecidableEq

/-- `Animal` from src/types/index.ts. -/
structure Animal where
  id : String
  createdAt : Nat
  mode : AnimalMode
  name : String
  species : Species
  personality : Personality
  colors : AnimalColors
  specialThing : Option String
  stickerDataUrl : Option String
  portraitDataUrl : Option String
deriving DecidableEq

/-- `Scene` from src/types/index.ts. -/
structure Scene where
  id : String
  createdAt : Nat
  title : String
  location : Location
  animalIds : List String
  userDescription : String
  promptUsed : String
  imageDataUrls : List String
  chosenImageDataUrl : Option String
  caption : Option String
  voiceNoteDataUrl : Option String
deriving DecidableEq

/-- `Settings` from src/types/index.ts. -/
structure Settings where
  openaiApiKey : Option String
  imageModel : String
  imageCount : Nat
  kidSafeMode : Bool
  extraGentleMode : Bool
deriving DecidableEq

-- ============================================
-- Content Safety Filter (src/services/contentFilter.ts)
-- ============================================

/-- `BLOCKED_TERMS` from src/services/contentFilter.ts, in source order. -/
def BLOCKED_TERMS : List String :=
  [ -- Violence
    "kill", "killing", "dead", "death", "die", "dying", "murder", "blood", "bloody",
    "weapon", "gun", "knife", "sword", "fight", "fighting", "war", "battle",
    "hurt", "attack", "attacking", "destroy", "explosion", "bomb",
    -- Scary
    "scary", "horror", "monster", "demon", "devil", "evil", "nightmare", "haunted",
    "ghost", "zombie", "vampire", "skeleton", "creepy", "terrifying", "frightening",
    -- Inappropriate
    "naked", "nude", "sexy", "kiss", "kissing", "romantic", "love", "dating",
    "boyfriend", "girlfriend", "married", "wedding",
    -- Negative emotions (when excessive)
    "hate", "hating", "angry", "furious", "rage", "crying", "sad", "depressed",
    -- Substances
    "alcohol", "beer", "wine", "drunk", "smoke", "smoking", "drugs" ]

/-- `GENTLE_ALTERNATIVES` from src/services/contentFilter.ts, as a lookup. -/
def GENTLE_ALTERNATIVES : String → Option String
  | "scary" => some ("exciting")
  | "fight" => some ("play")
  | "fighting" => some ("playing")
  | "angry" => some ("grumpy")
  | "sad" => some ("a little blue")
  | "crying" => some ("feeling emotional")
  | "hurt" => some ("bumped")
  | _ => none

/-- `ContentCheckResult` from src/services/contentFilter.ts. -/
structure ContentCheckResult where
  isAllowed : Bool
  friendlyMessage : Option String
  cleanedText : Option String
deriving DecidableEq

/-- The deny branch of `checkContent` for a matched blocked term: with
`extraGentleMode` and a registered alternative, the specific suggestion;
otherwise the generic redirect message. -/
def blockedOutcome (extraGentleMode : Bool) (term : String) : ContentCheckResult :=
  if extraGentleMode && (GENTLE_ALTERNATIVES term).isSome then
    { isAllowed := false,
      friendlyMessage := some ("Oops! Let\x27s use friendlier words. Instead of \"" ++ term
        ++ "\", how about \"" ++ (GENTLE_ALTERNATIVES term).getD ("") ++ "\"? 🌟"),
      cleanedText := none }
  else
    { isAllowed := false,
      friendlyMessage :=
        some ("Hmm, let\x27s keep our stories happy and friendly! Try describing something nice that could happen instead. 🌈"),
      cleanedText := none }

/-- The `mildlyNegative` list inside `checkContent`. -/
def MILDLY_NEGATIVE : List String := ["lost", "alone", "dark", "storm", "thunder"]

/-- `checkContent` from src/services/contentFilter.ts: lowercase the text,
scan `BLOCKED_TERMS` in order for a substring match (first match denies),
then in extra-gentle mode scan the mildly-negative list (a match there still
allows, with a reassuring message). -/
def checkContent (text : String) (extraGentleMode : Bool) : ContentCheckResult :=
  let lowerText := toLowerStr text
  match BLOCKED_TERMS.find? (fun term => strContains lowerText term) with
  | some term => blockedOutcome extraGentleMode term
  | none =>
    if extraGentleMode then
      match MILDLY_NEGATIVE.find? (fun term => strContains lowerText term) with
      | some _ =>
        { isAllowed := true,
          friendlyMessage :=
            some ("That sounds like an adventure! Remember, everything turns out okay in the end! ✨"),
          cleanedText := some text }
      | none => { isAllowed := true, friendlyMessage := none, cleanedText := some text }
    else
      { isAllowed := true, friendlyMessage := none, cleanedText := some text }

-- ============================================
-- Prompt Builder (src/services/imageGeneration.ts)
-- ============================================

/-- `ART_STYLE` from src/services/imageGeneration.ts (a template literal
spanning four lines, with a trailing space before each line break). -/
def ART_STYLE : String :=
  "cozy children\x27s storybook watercolor illustration, warm soft lighting, \ngentle pastel colors with pops of warmth, friendly inviting atmosphere, \nhand-painted feel with soft edges, magical dreamy quality, \nreminiscent of classic children\x27s picture books"

/-- `LOCATION_DESCRIPTIONS` from src/services/imageGeneration.ts. -/
def locationDescription : Location → String
  | .Stable => "a cozy wooden stable with hay bales, warm lantern light, and comfortable stalls"
  | .Barn => "a charming red barn with open doors, golden sunlight streaming in, rustic wooden beams"
  | .Pasture => "a lush green pasture with wildflowers, white wooden fences, and rolling hills"
  | .Meadow => "a beautiful wildflower meadow with butterflies, soft grass, and gentle sunshine"
  | .ForestTrail => "a magical forest trail with dappled sunlight through leaves, ferns, and mossy rocks"
  | .RidingArena => "a well-kept riding arena with white fences, soft sandy ground, and blue sky"
  | .WinterField => "a peaceful snowy field with gentle snowflakes, frost-covered fences, and cozy atmosphere"
  | .River => "a gentle babbling brook with smooth stones, willow trees, and sparkling water"
  | .MountainPath => "a scenic mountain trail with wildflowers, pine trees, and distant peaks"
  | .CozyFarm => "a charming farmyard with a cottage, vegetable garden, and friendly atmosphere"

/-- `buildKidSafePromptSuffix` from src/services/contentFilter.ts (a template
literal starting with a line break). -/
def buildKidSafePromptSuffix : String :=
  "\nIMPORTANT STYLE REQUIREMENTS:\n- Cozy, warm, and friendly atmosphere\n- Soft, inviting colors with gentle lighting\n- All animals have happy, friendly expressions\n- Safe, wholesome environment suitable for children\n- Storybook illustration style with a magical, dreamy quality\n- No scary, violent, or inappropriate elements\n- Everything feels safe, warm, and welcoming"

/-- JS `x || y` on two possibly-`undefined` strings: the first operand when
truthy, otherwise the second. -/
def jsOrOpt (x y : Option String) : Option String := if jsTruthy x then x else y

/-- The value of `animal.portraitDataUrl || animal.stickerDataUrl`, used both
as the `hasImage` test of `buildScenePrompt` and as the collected image in
`getAnimalImages`. -/
def imageOf (a : Animal) : Option String := jsOrOpt a.portraitDataUrl a.stickerDataUrl

/-- Truthiness of `animal.portraitDataUrl || animal.stickerDataUrl`
(the `hasImage` constant inside `buildScenePrompt`). -/
def hasImage (a : Animal) : Bool := jsTruthy (imageOf a)

/-- The per-character descriptor built inside `buildScenePrompt`
(the body of the `animals.map((animal, index) => ...)` callback: the eight
`parts` entries joined with the empty separator). -/
def animalDescriptor (animal : Animal) (index : Nat) : String :=
  let hasImg := hasImage animal
  (animal.name ++ " the " ++ toLowerStr (speciesStr animal.species))
    ++ (if hasImg then " (shown in reference image " ++ toString (index + 1) ++ ")" else "")
    ++ (if !hasImg then " (" ++ animal.colors.primary else "")
    ++ (if !hasImg && strTruthy animal.colors.secondary then
          " with " ++ animal.colors.secondary ++ " markings" else "")
    ++ (if !hasImg && jsTruthy animal.colors.markings then
          ", " ++ animal.colors.markings.getD ("") else "")
    ++ (if !hasImg then ")" else "")
    ++ (", who is " ++ toLowerStr (personalityStr animal.personality))
    ++ (if jsTruthy animal.specialThing then " and " ++ animal.specialThing.getD ("") else "")

/-- The list of per-character descriptors, indexed from `i`
(`animals.map((animal, index) => ...)` starts at index 0). -/
def animalDescriptions : List Animal → Nat → List String
  | [], _ => []
  | a :: rest, i => animalDescriptor a i :: animalDescriptions rest (i + 1)

/-- `buildScenePrompt` from src/services/imageGeneration.ts. -/
def buildScenePrompt (animals : List Animal) (location : Location)
    (userDescription : String) : String :=
  let descriptions := String.intercalate ("; ") (animalDescriptions animals 0)
  let locationDesc := locationDescription location
  ART_STYLE ++ ".\n\nScene setting: " ++ locationDesc ++ ".\n\nCharacters: "
    ++ descriptions ++ ".\n\nWhat\x27s happening: " ++ userDescription
    ++ "\n\nIMPORTANT: Draw the characters to match the reference images provided. Keep their appearance consistent with the references.\n\n"
    ++ buildKidSafePromptSuffix

/-- `getAnimalImages` from src/services/imageGeneration.ts: the
`portraitDataUrl || stickerDataUrl` of each character, keeping only truthy
values, in list order. -/
def getAnimalImages (animals : List Animal) : List String :=
  ((animals.map imageOf).filter jsTruthy).filterMap id

/-- Number of occurrences of `pat` as a contiguous run in `s` (counting
start positions). -/
def countOccurAux (pat : List Char) : List Char → Nat
  | [] => 0
  | c :: rest => (if pat.isPrefixOf (c :: rest) then 1 else 0) + countOccurAux pat rest

/-- Number of occurrences of the (non-empty) pattern `pat` in the string `s`. -/
def countOccur (s pat : String) : Nat := countOccurAux pat.data s.data

-- ============================================
-- Concrete characters for the end-to-end scenarios
-- ============================================

/-- A character with a generated portrait. -/
def demoDaisy : Animal :=
  { id := "a1", createdAt := 1, mode := .dream, name := "Daisy", species := .Cow,
    personality := .Kind, colors := { primary := "brown", secondary := "", markings := none },
    specialThing := none, stickerDataUrl := none,
    portraitDataUrl := some ("data:image/png;base64,daisy") }

/-- A character with neither portrait nor sticker. -/
def demoStar : Animal :=
  { id := "a2", createdAt := 2, mode := .dream, name := "Starlight", species := .Horse,
    personality := .Brave,
    colors := { primary := "white", secondary := "gray", markings := some ("a small star") },
    specialThing := none, stickerDataUrl := none, portraitDataUrl := none }

/-- A character with a photo-derived sticker. -/
def demoBiscuit : Animal :=
  { id := "a3", createdAt := 3, mode := .toy, name := "Biscuit", species := .Dog,
    personality := .Playful, colors := { primary := "golden", secondary := "", markings := none },
    specialThing := some ("loves to fetch"),
    stickerDataUrl := some ("data:image/png;base64,biscuit"), portraitDataUrl := none }

-- ============================================
-- Generation Client (src/services/imageGeneration.ts)
-- ============================================

/-- `ImageGenerationResult` from src/services/imageGeneration.ts. -/
structure ImageGenerationResult where
  success : Bool
  images : Option (List String)
  error : Option String
deriving DecidableEq

/-- The outcome of the client fetch of `/api/generate-image`, as the source
observes it: either the fetch or the body parse threw, or a reply arrived
with `response.ok`, `response.status`, and the parsed body fields
`data.images` and `data.error`. -/
inductive ClientFetchOutcome where
  | threw
  | reply (ok : Bool) (status : Nat) (images : Option (List String)) (error : Option String)
deriving DecidableEq

/-- JS `x || y` for a possibly-`undefined` string against a string default. -/
def jsOrStr (o : Option String) (dflt : String) : String :=
  if jsTruthy o then o.getD ("") else dflt

/-- `friendlyError` from src/services/imageGeneration.ts: first matching
substring classifier wins. -/
def friendlyError (error : String) : String :=
  if strContains error ("Rate") || strContains error ("rate")
      || strContains error ("429") then
    "Whoa, slow down! Wait a moment and try again ⏰"
  else if strContains error ("content") || strContains error ("safety")
      || strContains error ("policy") then
    "Let\x27s try describing something different! 🌈"
  else if strContains error ("API key") || strContains error ("not configured")
      || strContains error ("auth") || strContains error ("401") then
    "Oops! Something\x27s not set up right. Ask Uncle Gavin! 🔧"
  else if strContains error ("billing") || strContains error ("quota")
      || strContains error ("403") then
    "The magic machine needs more fuel! Ask Uncle Gavin 🔧"
  else
    "Something went wrong. Let\x27s try again! 🔄"

/-- `generateImages` from src/services/imageGeneration.ts, as a function of
the fetch outcome: a thrown fetch yields the connectivity message, a non-ok
reply yields the classified friendly error, an ok reply with a missing or
empty `images` array is a failure, anything else succeeds with the images. -/
def generateImages (outcome : ClientFetchOutcome) : ImageGenerationResult :=
  match outcome with
  | .threw =>
    { success := false, images := none,
      error := some ("Could not connect to the server. Check your internet! 🌐") }
  | .reply ok status images error =>
    if !ok then
      { success := false, images := none,
        error := some (friendlyError (jsOrStr error ("Error " ++ toString status))) }
    else if (images.getD []).isEmpty then
      { success := false, images := none,
        error := some ("No images were created. Let\x27s try again! 🔄") }
    else
      { success := true, images := images, error := none }

-- ============================================
-- Generation Gateway (api/generate-image.ts serverless handler)
-- ============================================

/-- The `{ success, images?, error? }` envelope returned by
`generateWithGemini` and `generateWithOpenAI`. -/
structure GenResult where
  success : Bool
  images : Option (List String)
  error : Option String
deriving DecidableEq

/-- One upstream provider fetch, as the handler code observes it: either the
fetch threw, or a response arrived with its status, the parsed
`error.message` text (empty when unparseable), and the image extracted from
a 2xx body (none when no image part was present). -/
inductive FetchOutcome where
  | networkError
  | reply (status : Nat) (errMessage : String) (image : Option String)
deriving DecidableEq

/-- The per-request branch of the loop body of `generateWithGemini`:
2xx yields the extracted image, 429 / 400-with-safety-text / other statuses
and thrown fetches yield the corresponding error strings. -/
def geminiSingle (o : FetchOutcome) : Except String (Option String) :=
  match o with
  | .networkError => .error ("Gemini connection failed")
  | .reply status msg img =>
    if 200 ≤ status ∧ status ≤ 299 then .ok img
    else if status = 429 then .error ("Rate limited - try again in a moment")
    else if status = 400 ∧ strContains msg ("safety") then
      .error ("Content blocked - try different description")
    else .error ("Gemini error: " ++ toString status)

/-- The per-request branch of the loop body of `generateWithOpenAI`. -/
def openaiSingle (o : FetchOutcome) : Except String (Option String) :=
  match o with
  | .networkError => .error ("OpenAI connection failed")
  | .reply status msg img =>
    if 200 ≤ status ∧ status ≤ 299 then .ok img
    else if status = 401 then .error ("Invalid API key")
    else if status = 429 then .error ("Rate limited - try again in a moment")
    else if status = 400 then .error (jsOrStr (some msg) ("Bad request"))
    else .error ("OpenAI error: " ++ toString status)

/-- The shared `for (let i = 0; i < count; i++)` loop of both provider
functions: issue single-image requests sequentially, return the error
immediately on the first failure (discarding the images collected so far),
push each extracted image, and after the loop fail when no image was
collected, else succeed with all collected images. -/
def providerLoop (single : FetchOutcome → Except String (Option String))
    (responses : Nat → FetchOutcome) : Nat → Nat → List String → GenResult
  | _, 0, images =>
    if images.isEmpty then
      { success := false, images := none, error := some ("No images generated") }
    else
      { success := true, images := some images, error := none }
  | i, n + 1, images =>
    match single (responses i) with
    | .error e => { success := false, images := none, error := some e }
    | .ok none => providerLoop single responses (i + 1) n images
    | .ok (some img) => providerLoop single responses (i + 1) n (images ++ [img])

/-- `generateWithGemini` from api/generate-image.ts, as a function of the
per-request fetch outcomes. -/
def generateWithGemini (count : Nat) (responses : Nat → FetchOutcome) : GenResult :=
  providerLoop geminiSingle responses 0 count []

/-- `generateWithOpenAI` from api/generate-image.ts, as a function of the
per-request fetch outcomes. -/
def generateWithOpenAI (count : Nat) (responses : Nat → FetchOutcome) : GenResult :=
  providerLoop openaiSingle responses 0 count []

/-- Whether one single-image request succeeded (reached the image-push
code) rather than returning an error. -/
def singleOk (r : Except String (Option String)) : Bool :=
  match r with
  | .ok _ => true
  | .error _ => false

/-- A provider attempt made by the handler: the provider called, the prompt
sent, the reference images attached to the upstream request body, and the
requested image count. -/
inductive ProviderAttempt where
  | gemini (prompt : String) (refsAttached : List String) (count : Nat)
  | openai (prompt : String) (refsAttached : List String) (count : Nat)
deriving DecidableEq

/-- The reference images attached to an attempt's upstream request body. -/
def ProviderAttempt.refs : ProviderAttempt → List String
  | .gemini _ r _ => r
  | .openai _ r _ => r

/-- Whether an attempt went to the Gemini provider. -/
def ProviderAttempt.isGemini : ProviderAttempt → Bool
  | .gemini _ _ _ => true
  | .openai _ _ _ => false

/-- The parsed POST body of the gateway (the client always sends
`{ prompt, count, referenceImages }`), plus the HTTP method. -/
structure GatewayRequest where
  method : String
  prompt : String
  count : Nat
  referenceImages : List String
deriving DecidableEq

/-- A concrete POST body for the gateway scenarios, parameterized by the
reference images the client attached. -/
def demoReq (refs : List String) : GatewayRequest :=
  { method := "POST", prompt := "a pony", count := 1, referenceImages := refs }

/-- The handler's JSON reply: status plus either an error body or a
serialized `GenResult`. -/
structure HandlerResponse where
  status : Nat
  error : Option String
  result : Option GenResult
deriving DecidableEq

/-- The `handler` of api/generate-image.ts, paired with the trace of
provider attempts it makes.  The handler destructures only `prompt` and
`count` from the body (`const { prompt, count = 1 } = await request.json()`);
the `referenceImages` field the client sends is never read, and the upstream
request bodies built in `generateWithGemini` / `generateWithOpenAI` contain
only text parts, so every recorded attempt attaches the empty image list. -/
def handler (geminiKey openaiKey : Option String) (req : GatewayRequest)
    (geminiResponses openaiResponses : Nat → FetchOutcome) :
    HandlerResponse × List ProviderAttempt :=
  if req.method != "POST" then
    ({ status := 405, error := some ("Method not allowed"), result := none }, [])
  else if !jsTruthy geminiKey && !jsTruthy openaiKey then
    ({ status := 500, error := some ("No API key configured"), result := none }, [])
  else if !strTruthy req.prompt then
    ({ status := 400, error := some ("Prompt is required"), result := none }, [])
  else if jsTruthy geminiKey then
    let r := generateWithGemini (min req.count 4) geminiResponses
    if r.success then
      ({ status := 200, error := none, result := some r },
        [ProviderAttempt.gemini req.prompt [] (min req.count 4)])
    else if jsTruthy openaiKey then
      let r2 := generateWithOpenAI (min req.count 4) openaiResponses
      ({ status := if r2.success then 200 else 400, error := none, result := some r2 },
        [ProviderAttempt.gemini req.prompt [] (min req.count 4),
         ProviderAttempt.openai req.prompt [] (min req.count 4)])
    else
      ({ status := 500, error := some ("Image generation failed"), result := none },
        [ProviderAttempt.gemini req.prompt [] (min req.count 4)])
  else if jsTruthy openaiKey then
    let r2 := generateWithOpenAI (min req.count 4) openaiResponses
    ({ status := if r2.success then 200 else 400, error := none, result := some r2 },
      [ProviderAttempt.openai req.prompt [] (min req.count 4)])
  else
    ({ status := 500, error := some ("Image generation failed"), result := none }, [])

-- ============================================
-- Persistence layer (src/services/database.ts)
-- ============================================

/-- The three IndexedDB object stores: `animals` and `scenes` keyed by `id`
(`keyPath: 'id'`, so ids are unique), and the settings singleton (the `main`
row, absent until the first save). -/
structure Store where
  animals : List Animal
  scenes : List Scene
  settings : Option Settings
deriving DecidableEq

/-- A store with no rows at all. -/
def emptyStore : Store := { animals := [], scenes := [], settings := none }

/-- IndexedDB `put` (upsert by primary key) for a keyPath-selected id. -/
def putById (getId : α → String) (l : List α) (x : α) : List α :=
  if l.any (fun y => getId y == getId x) then
    l.map (fun y => if getId y == getId x then x else y)
  else
    l ++ [x]

/-- `db.put('animals', animal)`. -/
def putAnimal : List Animal → Animal → List Animal := putById Animal.id

/-- `db.put('scenes', scene)`. -/
def putScene : List Scene → Scene → List Scene := putById Scene.id

/-- `getAllAnimals`: every row in `by-created` index order, reversed so the
newest comes first. -/
def getAllAnimals (store : Store) : List Animal :=
  (store.animals.mergeSort (fun a b => decide (a.createdAt ≤ b.createdAt))).reverse

/-- `getAllScenes`: every row in `by-created` index order, reversed. -/
def getAllScenes (store : Store) : List Scene :=
  (store.scenes.mergeSort (fun a b => decide (a.createdAt ≤ b.createdAt))).reverse

/-- `DEFAULT_SETTINGS` from src/services/database.ts. -/
def DEFAULT_SETTINGS : Settings :=
  { openaiApiKey := none, imageModel := "dall-e-3", imageCount := 4,
    kidSafeMode := true, extraGentleMode := false }

/-- `getSettings`: the stored `main` row, or the defaults when absent. -/
def getSettings (store : Store) : Settings := store.settings.getD DEFAULT_SETTINGS

/-- `ExportData` from src/services/database.ts. -/
structure ExportData where
  version : Nat
  exportedAt : String
  animals : List Animal
  scenes : List Scene
  settings : Settings
deriving DecidableEq

/-- `exportAllData` from src/services/database.ts, with the wall-clock
timestamp passed in: collections plus the settings with the API key
stripped (`openaiApiKey: undefined`). -/
def exportAllData (now : String) (store : Store) : ExportData :=
  let animals := getAllAnimals store
  let scenes := getAllScenes store
  let settings := getSettings store
  let safeSettings := { settings with openaiApiKey := none }
  { version := 1, exportedAt := now, animals := animals, scenes := scenes,
    settings := safeSettings }

/-- `importAllData` from src/services/database.ts: `put` every animal and
scene of the document, then save the document's settings with the existing
store's API key kept in place of the imported one. -/
def importAllData (store : Store) (data : ExportData) : Store :=
  let animals2 := data.animals.foldl putAnimal store.animals
  let scenes2 := data.scenes.foldl putScene store.scenes
  let existingSettings := getSettings store
  let newSettings := { data.settings with openaiApiKey := existingSettings.openaiApiKey }
  { animals := animals2, scenes := scenes2, settings := some newSettings }

/-- A concrete scene for the round-trip witness. -/
def demoScene : Scene :=
  { id := "s1", createdAt := 10, title := "Meadow play", location := .Meadow,
    animalIds := ["a1", "a2"], userDescription := "playing together",
    promptUsed := "p", imageDataUrls := ["data:image/png;base64,scene"],
    chosenImageDataUrl := none, caption := none, voiceNoteDataUrl := none }

/-- Concrete settings with a stored credential. -/
def demoSettings : Settings :=
  { openaiApiKey := some ("secret"), imageModel := "dall-e-3",
    imageCount := 4, kidSafeMode := true, extraGentleMode := false }

/-- A concrete populated store, with a stored credential. -/
def demoStore : Store :=
  { animals := [demoDaisy, demoStar], scenes := [demoScene],
    settings := some demoSettings }

-- ============================================
-- Theorems
-- ============================================

/-- The deny branch always denies, whichever message it picks. -/
theorem blockedOutcome_isAllowed (g : Bool) (term : String) :
    (blockedOutcome g term).isAllowed = false := by
  unfold blockedOutcome
  split <;> rfl

/-- Claim C2: every string containing a blocked term as a case-insensitive
substring is denied by `checkContent` for both values of the extra-gentle
flag, and the outcome is exactly the deny branch of the first matching term
in list order (no scoring). -/
theorem checkContent_blocked_denies (text : String)
    (h : ∃ term ∈ BLOCKED_TERMS, strContains (toLowerStr text) term = true) :
    ((checkContent text false).isAllowed = false ∧
      (checkContent text true).isAllowed = false) ∧
    ∃ term, BLOCKED_TERMS.find? (fun t => strContains (toLowerStr text) t) = some term ∧
      ∀ g : Bool, checkContent text g = blockedOutcome g term := by
  have hsome : (BLOCKED_TERMS.find? (fun t => strContains (toLowerStr text) t)).isSome := by
    rw [List.find?_isSome]
    obtain ⟨t, ht, hc⟩ := h
    exact ⟨t, ht, hc⟩
  obtain ⟨term, hfind⟩ := Option.isSome_iff_exists.mp hsome
  have heq : ∀ g : Bool, checkContent text g = blockedOutcome g term := by
    intro g
    simp only [checkContent]
    rw [hfind]
  refine ⟨⟨?_, ?_⟩, term, hfind, heq⟩
  · rw [heq false, blockedOutcome_isAllowed]
  · rw [heq true, blockedOutcome_isAllowed]

/-- Claim C2 witness: the text `"We will FIGHT them"` contains the blocked
term `"fight"` case-insensitively and is denied under both flags. -/
theorem checkContent_blocked_denies_witness :
    (∃ term ∈ BLOCKED_TERMS,
        strContains (toLowerStr ("We will FIGHT them")) term = true) ∧
    (((checkContent ("We will FIGHT them") false).isAllowed = false ∧
        (checkContent ("We will FIGHT them") true).isAllowed = false) ∧
      ∃ term,
        BLOCKED_TERMS.find?
            (fun t => strContains (toLowerStr ("We will FIGHT them")) t) = some term ∧
        ∀ g : Bool,
          checkContent ("We will FIGHT them") g = blockedOutcome g term) :=
  ⟨by decide, checkContent_blocked_denies ("We will FIGHT them") (by decide)⟩

/-- Claim C7: `checkContent "fight"` with the flag off denies with the
generic redirect message; with the flag on it denies with the message
suggesting "play" as the replacement for "fight". -/
theorem checkContent_fight_scenario :
    checkContent ("fight") false =
      { isAllowed := false,
        friendlyMessage :=
          some ("Hmm, let\x27s keep our stories happy and friendly! Try describing something nice that could happen instead. 🌈"),
        cleanedText := none } ∧
    checkContent ("fight") true =
      { isAllowed := false,
        friendlyMessage :=
          some ("Oops! Let\x27s use friendlier words. Instead of \"fight\", how about \"play\"? 🌟"),
        cleanedText := none } :=
  ⟨by decide, by decide⟩

/-- Claim C9: the extra-gentle flag never changes the allow/deny decision of
`checkContent`, only the accompanying message. -/
theorem checkContent_gentle_same_decision (text : String) :
    (checkContent text true).isAllowed = (checkContent text false).isAllowed := by
  simp only [checkContent]
  cases BLOCKED_TERMS.find? (fun term => strContains (toLowerStr text) term) with
  | some term =>
    show (blockedOutcome true term).isAllowed = (blockedOutcome false term).isAllowed
    rw [blockedOutcome_isAllowed, blockedOutcome_isAllowed]
  | none =>
    cases MILDLY_NEGATIVE.find? (fun term => strContains (toLowerStr text) term) with
    | some term => rfl
    | none => rfl

-- ============================================
-- Prompt builder lemmas
-- ============================================

/-- A character with a portrait or sticker gets a reference-image deferral
and no inline color text. -/
theorem animalDescriptor_of_hasImage (a : Animal) (i : Nat) (h : hasImage a = true) :
    animalDescriptor a i =
      (a.name ++ " the " ++ toLowerStr (speciesStr a.species))
        ++ (" (shown in reference image " ++ toString (i + 1) ++ ")")
        ++ (", who is " ++ toLowerStr (personalityStr a.personality))
        ++ (if jsTruthy a.specialThing then " and " ++ a.specialThing.getD ("") else "") := by
  simp [animalDescriptor, h]

/-- A character with neither image gets the full inline color clause:
primary color, plus the secondary and markings clauses when present. -/
theorem animalDescriptor_of_no_image (a : Animal) (i : Nat) (h : hasImage a = false) :
    animalDescriptor a i =
      (a.name ++ " the " ++ toLowerStr (speciesStr a.species))
        ++ (" (" ++ a.colors.primary)
        ++ (if strTruthy a.colors.secondary then
              " with " ++ a.colors.secondary ++ " markings" else "")
        ++ (if jsTruthy a.colors.markings then
              ", " ++ a.colors.markings.getD ("") else "")
        ++ ")"
        ++ (", who is " ++ toLowerStr (personalityStr a.personality))
        ++ (if jsTruthy a.specialThing then " and " ++ a.specialThing.getD ("") else "") := by
  simp [animalDescriptor, h]

/-- The `j`-th descriptor in the prompt is built for the `j`-th character
with index offset `i`. -/
theorem animalDescriptions_get? (l : List Animal) (j i : Nat) :
    (animalDescriptions l i).get? j = (l.get? j).map (fun a => animalDescriptor a (i + j)) := by
  induction l generalizing j i with
  | nil => cases j <;> rfl
  | cons a rest ih =>
    cases j with
    | zero => rfl
    | succ j =>
      have harith : i + 1 + j = i + (j + 1) := by omega
      show (animalDescriptions rest (i + 1)).get? j =
        (rest.get? j).map (fun a => animalDescriptor a (i + (j + 1)))
      rw [ih j (i + 1), harith]

theorem getAnimalImages_nil : getAnimalImages [] = [] := rfl

/-- Unfolding `getAnimalImages` one character at a time. -/
theorem getAnimalImages_cons (a : Animal) (l : List Animal) :
    getAnimalImages (a :: l) =
      if hasImage a then (imageOf a).getD ("") :: getAnimalImages l
      else getAnimalImages l := by
  unfold getAnimalImages hasImage
  simp only [List.map_cons, List.filter_cons]
  cases h : jsTruthy (imageOf a) with
  | false => simp [h]
  | true =>
    cases him : imageOf a with
    | none => rw [him] at h; exact absurd h (by decide)
    | some s => simp [h, him, List.filterMap_cons]

/-- `getAnimalImages` distributes over list concatenation. -/
theorem getAnimalImages_append (l₁ l₂ : List Animal) :
    getAnimalImages (l₁ ++ l₂) = getAnimalImages l₁ ++ getAnimalImages l₂ := by
  unfold getAnimalImages
  simp [List.filter_append, List.filterMap_append]

/-- At most one reference image is supplied per character. -/
theorem getAnimalImages_length_le (l : List Animal) :
    (getAnimalImages l).length ≤ l.length := by
  induction l with
  | nil => simp [getAnimalImages_nil]
  | cons a rest ih =>
    rw [getAnimalImages_cons]
    cases hImg : hasImage a with
    | true => rw [if_pos rfl]; simpa using ih
    | false =>
      rw [if_neg (by simp)]
      have := ih
      simp only [List.length_cons]
      omega

/-- A character without an image contributes no reference image, so the
supplied list is strictly shorter than the character list. -/
theorem getAnimalImages_length_lt (l : List Animal)
    (h : ∃ a ∈ l, hasImage a = false) :
    (getAnimalImages l).length < l.length := by
  induction l with
  | nil => simp at h
  | cons a rest ih =>
    rw [getAnimalImages_cons]
    obtain ⟨b, hb, hbi⟩ := h
    rcases List.mem_cons.mp hb with rfl | hbrest
    · rw [if_neg (by simp [hbi])]
      have := getAnimalImages_length_le rest
      simp only [List.length_cons]
      omega
    · have hlt := ih ⟨b, hbrest, hbi⟩
      cases hImg : hasImage a with
      | true =>
        rw [if_pos rfl]
        simp only [List.length_cons]
        omega
      | false =>
        rw [if_neg (by simp)]
        simp only [List.length_cons]
        omega

set_option maxRecDepth 100000 in
/-- Claim C3: a character with a portrait or sticker image gets a
reference-image deferral and no inline color text; a character with neither
always gets the full inline color clause; and for the three demo characters
(two with images, one without) the scene prompt contains exactly two
reference-image deferrals and exactly one inline full-color clause. -/
theorem buildScenePrompt_color_policy :
    (∀ (a : Animal) (i : Nat), hasImage a = true →
        animalDescriptor a i =
          (a.name ++ " the " ++ toLowerStr (speciesStr a.species))
            ++ (" (shown in reference image " ++ toString (i + 1) ++ ")")
            ++ (", who is " ++ toLowerStr (personalityStr a.personality))
            ++ (if jsTruthy a.specialThing then
                  " and " ++ a.specialThing.getD ("") else "")) ∧
    (∀ (a : Animal) (i : Nat), hasImage a = false →
        animalDescriptor a i =
          (a.name ++ " the " ++ toLowerStr (speciesStr a.species))
            ++ (" (" ++ a.colors.primary)
            ++ (if strTruthy a.colors.secondary then
                  " with " ++ a.colors.secondary ++ " markings" else "")
            ++ (if jsTruthy a.colors.markings then
                  ", " ++ a.colors.markings.getD ("") else "")
            ++ ")"
            ++ (", who is " ++ toLowerStr (personalityStr a.personality))
            ++ (if jsTruthy a.specialThing then
                  " and " ++ a.specialThing.getD ("") else "")) ∧
    countOccur
        (buildScenePrompt [demoDaisy, demoStar, demoBiscuit] Location.Meadow
          ("playing together"))
        (" (shown in reference image ") = 2 ∧
    countOccur
        (buildScenePrompt [demoDaisy, demoStar, demoBiscuit] Location.Meadow
          ("playing together"))
        (" (white with gray markings, a small star)") = 1 :=
  ⟨animalDescriptor_of_hasImage, animalDescriptor_of_no_image, by decide, by decide⟩

/-- Claim C3 witness: the demo portrait character (index 0) defers to its
reference image with no color text, and the imageless demo character
(index 1) gets its full inline color clause. -/
theorem buildScenePrompt_color_policy_witness :
    (hasImage demoDaisy = true ∧
      animalDescriptor demoDaisy 0 =
        (demoDaisy.name ++ " the " ++ toLowerStr (speciesStr demoDaisy.species))
          ++ (" (shown in reference image " ++ toString (0 + 1) ++ ")")
          ++ (", who is " ++ toLowerStr (personalityStr demoDaisy.personality))
          ++ (if jsTruthy demoDaisy.specialThing then
                " and " ++ demoDaisy.specialThing.getD ("") else "")) ∧
    (hasImage demoStar = false ∧
      animalDescriptor demoStar 1 =
        (demoStar.name ++ " the " ++ toLowerStr (speciesStr demoStar.species))
          ++ (" (" ++ demoStar.colors.primary)
          ++ (if strTruthy demoStar.colors.secondary then
                " with " ++ demoStar.colors.secondary ++ " markings" else "")
          ++ (if jsTruthy demoStar.colors.markings then
                ", " ++ demoStar.colors.markings.getD ("") else "")
          ++ ")"
          ++ (", who is " ++ toLowerStr (personalityStr demoStar.personality))
          ++ (if jsTruthy demoStar.specialThing then
                " and " ++ demoStar.specialThing.getD ("") else "")) :=
  ⟨⟨by decide, buildScenePrompt_color_policy.1 demoDaisy 0 (by decide)⟩,
   ⟨by decide, buildScenePrompt_color_policy.2.1 demoStar 1 (by decide)⟩⟩

/-- Claim C10: the prompt cites reference image number `j + 1` for the
character at list position `j`, but `getAnimalImages` supplies only the
images of characters that have one; when some imageless character precedes
position `j`, the cited number `j + 1` strictly exceeds the actual 1-based
position of that character's image among the supplied reference images. -/
theorem sceneReference_numbering_mismatch (animals : List Animal) (j : Nat)
    (hj : j < animals.length)
    (hImg : hasImage (animals.get ⟨j, hj⟩) = true)
    (hPrec : ∃ i, ∃ hi : i < animals.length, i < j ∧
        hasImage (animals.get ⟨i, hi⟩) = false) :
    (animalDescriptions animals 0).get? j =
        some (animalDescriptor (animals.get ⟨j, hj⟩) j) ∧
    animalDescriptor (animals.get ⟨j, hj⟩) j =
      ((animals.get ⟨j, hj⟩).name ++ " the "
          ++ toLowerStr (speciesStr (animals.get ⟨j, hj⟩).species))
        ++ (" (shown in reference image " ++ toString (j + 1) ++ ")")
        ++ (", who is " ++ toLowerStr (personalityStr (animals.get ⟨j, hj⟩).personality))
        ++ (if jsTruthy (animals.get ⟨j, hj⟩).specialThing then
              " and " ++ (animals.get ⟨j, hj⟩).specialThing.getD ("") else "") ∧
    getAnimalImages animals =
      getAnimalImages (animals.take j)
        ++ (imageOf (animals.get ⟨j, hj⟩)).getD ("")
          :: getAnimalImages (animals.drop (j + 1)) ∧
    (getAnimalImages (animals.take j)).length + 1 < j + 1 := by
  obtain ⟨i, hi, hij, hNoImg⟩ := hPrec
  refine ⟨?_, animalDescriptor_of_hasImage _ _ hImg, ?_, ?_⟩
  · rw [animalDescriptions_get? animals j 0, List.get?_eq_get hj]
    simp
  · conv_lhs => rw [← List.take_append_drop j animals]
    rw [getAnimalImages_append]
    have hdrop : animals.drop j = animals.get ⟨j, hj⟩ :: animals.drop (j + 1) := by
      rw [List.drop_eq_getElem_cons hj]
      rfl
    rw [hdrop, getAnimalImages_cons, if_pos hImg]
  · have hilen : i < (animals.take j).length := by
      rw [List.length_take]
      omega
    have hlt : (getAnimalImages (animals.take j)).length < (animals.take j).length := by
      apply getAnimalImages_length_lt
      refine ⟨(animals.take j).get ⟨i, hilen⟩, List.get_mem _ _ _, ?_⟩
      have hsame : (animals.take j).get ⟨i, hilen⟩ = animals.get ⟨i, hi⟩ := by
        simp only [List.get_eq_getElem, List.getElem_take]
      rw [hsame]
      exact hNoImg
    have hlen : (animals.take j).length = j := by
      rw [List.length_take]
      omega
    omega

/-- Claim C10 witness: with the imageless character first and the portrait
character second, the prompt cites reference image 2 for the portrait
character, yet its image is the first (and only) supplied reference image. -/
theorem sceneReference_numbering_mismatch_witness :
    (animalDescriptions [demoStar, demoDaisy] 0).get? 1 =
        some (animalDescriptor demoDaisy 1) ∧
    animalDescriptor demoDaisy 1 =
      (demoDaisy.name ++ " the " ++ toLowerStr (speciesStr demoDaisy.species))
        ++ (" (shown in reference image " ++ toString (1 + 1) ++ ")")
        ++ (", who is " ++ toLowerStr (personalityStr demoDaisy.personality))
        ++ (if jsTruthy demoDaisy.specialThing then
              " and " ++ demoDaisy.specialThing.getD ("") else "") ∧
    getAnimalImages [demoStar, demoDaisy] =
      getAnimalImages ([demoStar, demoDaisy].take 1)
        ++ (imageOf demoDaisy).getD ("")
          :: getAnimalImages ([demoStar, demoDaisy].drop 2) ∧
    (getAnimalImages ([demoStar, demoDaisy].take 1)).length + 1 < 1 + 1 :=
  sceneReference_numbering_mismatch [demoStar, demoDaisy] 1 (by decide) (by decide)
    ⟨0, by decide, by decide, by decide⟩

/-- Claim C5: an ok (2xx) reply whose payload has a missing or empty images
array yields `success := false` with the no-images error, and a successful
result never carries a missing or empty image list. -/
theorem generateImages_empty_is_failure :
    (∀ (status : Nat) (images : Option (List String)) (error : Option String),
        images = none ∨ images = some [] →
        generateImages (.reply true status images error) =
          { success := false, images := none,
            error := some ("No images were created. Let\x27s try again! 🔄") }) ∧
    (∀ outcome : ClientFetchOutcome,
        (generateImages outcome).success = true →
        ∃ l, (generateImages outcome).images = some l ∧ l ≠ []) := by
  constructor
  · intro status images error h
    rcases h with rfl | rfl <;> rfl
  · intro outcome h
    match outcome with
    | .threw => simp [generateImages] at h
    | .reply ok status images error =>
      by_cases hok : ok = false
      · subst hok
        simp [generateImages] at h
      · have hok' : ok = true := by
          cases ok
          · exact absurd rfl hok
          · rfl
        subst hok'
        by_cases hempty : (images.getD []).isEmpty = true
        · simp [generateImages, hempty] at h
        · match images with
          | none => simp [Option.getD] at hempty
          | some l =>
            have hne : l ≠ [] := by
              intro hnil
              subst hnil
              simp at hempty
            refine ⟨l, ?_, hne⟩
            simp [generateImages, hempty, hne]

/-- Claim C5 witness: a 200 reply with an empty images array fails with the
no-images message, and a successful concrete reply has a non-empty list. -/
theorem generateImages_empty_is_failure_witness :
    ((some ([] : List String) = none ∨ some ([] : List String) = some []) ∧
      generateImages (.reply true 200 (some []) none) =
        { success := false, images := none,
          error := some ("No images were created. Let\x27s try again! 🔄") }) ∧
    ((generateImages (.reply true 200 (some ["img"]) none)).success = true ∧
      ∃ l, (generateImages (.reply true 200 (some ["img"]) none)).images = some l ∧
        l ≠ []) :=
  ⟨⟨Or.inr rfl, generateImages_empty_is_failure.1 200 (some []) none (Or.inr rfl)⟩,
   ⟨by decide, generateImages_empty_is_failure.2 (.reply true 200 (some ["img"]) none)
      (by decide)⟩⟩

/-- If any single-image request in the window fails, the whole provider
attempt fails and the images collected so far are discarded. -/
theorem providerLoop_fail (single : FetchOutcome → Except String (Option String))
    (responses : Nat → FetchOutcome) :
    ∀ (n i : Nat) (images : List String),
      (∃ k, k < n ∧ singleOk (single (responses (i + k))) = false) →
      (providerLoop single responses i n images).success = false ∧
      (providerLoop single responses i n images).images = none := by
  intro n
  induction n with
  | zero =>
    intro i images h
    obtain ⟨k, hk, _⟩ := h
    omega
  | succ n ih =>
    intro i images h
    obtain ⟨k, hk, hfail⟩ := h
    cases hs : single (responses i) with
    | error e => simp [providerLoop, hs]
    | ok img =>
      have hk0 : k ≠ 0 := by
        intro h0
        subst h0
        rw [Nat.add_zero] at hfail
        rw [hs] at hfail
        simp [singleOk] at hfail
      obtain ⟨k', rfl⟩ : ∃ k', k = k' + 1 := ⟨k - 1, by omega⟩
      have hnext : ∃ k, k < n ∧ singleOk (single (responses (i + 1 + k))) = false := by
        refine ⟨k', by omega, ?_⟩
        have harith : i + 1 + k' = i + (k' + 1) := by omega
        rw [harith]
        exact hfail
      cases img with
      | none => simpa [providerLoop, hs] using ih (i + 1) images hnext
      | some s => simpa [providerLoop, hs] using ih (i + 1) (images ++ [s]) hnext

/-- A successful provider attempt carries an image list and saw every
single-image request in its window succeed. -/
theorem providerLoop_success (single : FetchOutcome → Except String (Option String))
    (responses : Nat → FetchOutcome) :
    ∀ (n i : Nat) (images : List String),
      (providerLoop single responses i n images).success = true →
      (providerLoop single responses i n images).images.isSome = true ∧
      ∀ k, k < n → singleOk (single (responses (i + k))) = true := by
  intro n
  induction n with
  | zero =>
    intro i images h
    refine ⟨?_, fun k hk => by omega⟩
    by_cases he : images.isEmpty = true
    · simp [providerLoop, he] at h
    · simp [providerLoop, he]
  | succ n ih =>
    intro i images h
    cases hs : single (responses i) with
    | error e => simp [providerLoop, hs] at h
    | ok img =>
      have hstep :
          ∀ (imgs : List String),
            providerLoop single responses i (n + 1) images =
              providerLoop single responses (i + 1) n imgs →
            (providerLoop single responses (i + 1) n imgs).success = true →
            (providerLoop single responses i (n + 1) images).images.isSome = true ∧
            ∀ k, k < n + 1 → singleOk (single (responses (i + k))) = true := by
        intro imgs heq hsucc
        obtain ⟨h1, h2⟩ := ih (i + 1) imgs hsucc
        rw [heq]
        refine ⟨h1, fun k hk => ?_⟩
        cases k with
        | zero => rw [Nat.add_zero, hs]; rfl
        | succ k' =>
          have harith : i + (k' + 1) = i + 1 + k' := by omega
          rw [harith]
          exact h2 k' (by omega)
      cases img with
      | none =>
        have heq : providerLoop single responses i (n + 1) images =
            providerLoop single responses (i + 1) n images := by
          simp [providerLoop, hs]
        exact hstep images heq (by rw [← heq]; exact h)
      | some s =>
        have heq : providerLoop single responses i (n + 1) images =
            providerLoop single responses (i + 1) n (images ++ [s]) := by
          simp [providerLoop, hs]
        exact hstep (images ++ [s]) heq (by rw [← heq]; exact h)

/-- Claim C4: within one provider attempt (either provider), a failing
single-image request makes the whole attempt fail with every image collected
so far discarded, and a successful attempt implies every one of the `count`
sequential requests succeeded — no mixed partial-success set is ever
returned. -/
theorem provider_attempt_all_or_nothing (count : Nat) (gR oR : Nat → FetchOutcome) :
    ((∃ k, k < count ∧ singleOk (geminiSingle (gR k)) = false) →
        (generateWithGemini count gR).success = false ∧
        (generateWithGemini count gR).images = none) ∧
    ((generateWithGemini count gR).success = true →
        (generateWithGemini count gR).images.isSome = true ∧
        ∀ k, k < count → singleOk (geminiSingle (gR k)) = true) ∧
    ((∃ k, k < count ∧ singleOk (openaiSingle (oR k)) = false) →
        (generateWithOpenAI count oR).success = false ∧
        (generateWithOpenAI count oR).images = none) ∧
    ((generateWithOpenAI count oR).success = true →
        (generateWithOpenAI count oR).images.isSome = true ∧
        ∀ k, k < count → singleOk (openaiSingle (oR k)) = true) := by
  refine ⟨fun h => ?_, fun h => ?_, fun h => ?_, fun h => ?_⟩
  · exact providerLoop_fail geminiSingle gR count 0 [] (by simpa using h)
  · have := providerLoop_success geminiSingle gR count 0 [] h
    simpa using this
  · exact providerLoop_fail openaiSingle oR count 0 [] (by simpa using h)
  · have := providerLoop_success openaiSingle oR count 0 [] h
    simpa using this

/-- Claim C4 witness: with two requested images and the second upstream
request failing, both providers report total failure with no partial image
set, even though the first request had produced an image. -/
theorem provider_attempt_all_or_nothing_witness :
    ((∃ k, k < 2 ∧
        singleOk (geminiSingle
          ((fun k => if k = 0 then FetchOutcome.reply 200 ("") (some ("g1"))
            else FetchOutcome.networkError) k)) = false) ∧
      (generateWithGemini 2
          (fun k => if k = 0 then FetchOutcome.reply 200 ("") (some ("g1"))
            else FetchOutcome.networkError)).success = false ∧
      (generateWithGemini 2
          (fun k => if k = 0 then FetchOutcome.reply 200 ("") (some ("g1"))
            else FetchOutcome.networkError)).images = none) ∧
    ((∃ k, k < 2 ∧
        singleOk (openaiSingle
          ((fun k => if k = 0 then FetchOutcome.reply 200 ("") (some ("o1"))
            else FetchOutcome.reply 401 ("") none) k)) = false) ∧
      (generateWithOpenAI 2
          (fun k => if k = 0 then FetchOutcome.reply 200 ("") (some ("o1"))
            else FetchOutcome.reply 401 ("") none)).success = false ∧
      (generateWithOpenAI 2
          (fun k => if k = 0 then FetchOutcome.reply 200 ("") (some ("o1"))
            else FetchOutcome.reply 401 ("") none)).images = none) :=
  ⟨⟨⟨1, by decide, by decide⟩,
    (provider_attempt_all_or_nothing 2
        (fun k => if k = 0 then FetchOutcome.reply 200 ("") (some ("g1"))
          else FetchOutcome.networkError)
        (fun k => if k = 0 then FetchOutcome.reply 200 ("") (some ("o1"))
          else FetchOutcome.reply 401 ("") none)).1 ⟨1, by decide, by decide⟩⟩,
   ⟨⟨1, by decide, by decide⟩,
    (provider_attempt_all_or_nothing 2
        (fun k => if k = 0 then FetchOutcome.reply 200 ("") (some ("g1"))
          else FetchOutcome.networkError)
        (fun k => if k = 0 then FetchOutcome.reply 200 ("") (some ("o1"))
          else FetchOutcome.reply 401 ("") none)).2.2.1 ⟨1, by decide, by decide⟩⟩⟩

/-- Claim C6: with neither provider credential configured, the handler makes
no provider attempt at all, and every POST request fails immediately with
the not-configured error. -/
theorem handler_not_configured (gk ok : Option String) (req : GatewayRequest)
    (gR oR : Nat → FetchOutcome)
    (hg : jsTruthy gk = false) (ho : jsTruthy ok = false) :
    (handler gk ok req gR oR).2 = [] ∧
    (req.method = "POST" →
      (handler gk ok req gR oR).1 =
        { status := 500, error := some ("No API key configured"), result := none }) := by
  constructor
  · by_cases hm : req.method = "POST" <;> simp [handler, hm, hg, ho]
  · intro hm
    simp [handler, hm, hg, ho]

/-- Claim C6 witness: a concrete POST request with both credential slots
empty gets the not-configured reply and an empty attempt trace. -/
theorem handler_not_configured_witness :
    (jsTruthy none = false ∧ jsTruthy none = false) ∧
    ((handler none none
        { method := "POST", prompt := "a pony", count := 1, referenceImages := [] }
        (fun _ => FetchOutcome.networkError) (fun _ => FetchOutcome.networkError)).2 = [] ∧
      (({ method := "POST", prompt := "a pony", count := 1,
            referenceImages := [] } : GatewayRequest).method = "POST" →
        (handler none none
            { method := "POST", prompt := "a pony", count := 1, referenceImages := [] }
            (fun _ => FetchOutcome.networkError) (fun _ => FetchOutcome.networkError)).1 =
          { status := 500, error := some ("No API key configured"), result := none })) :=
  ⟨⟨rfl, rfl⟩,
   handler_not_configured none none
     { method := "POST", prompt := "a pony", count := 1, referenceImages := [] }
     (fun _ => FetchOutcome.networkError) (fun _ => FetchOutcome.networkError) rfl rfl⟩

/-- Claim C1 counterexample: at a concrete POST request carrying one
reference image while the Gemini (vision-capable) credential is configured,
the single provider attempt attaches no reference images at all; and at the
same request without reference images, the Gemini step is still attempted
first.  Both halves of the claimed selection rule fail on the code. -/
theorem gateway_reference_images_counterexample :
    (handler (some ("gk")) none
        { method := "POST", prompt := "a pony", count := 1, referenceImages := ["IMG"] }
        (fun _ => FetchOutcome.reply 200 ("") (some ("g1")))
        (fun _ => FetchOutcome.networkError)).2 =
      [ProviderAttempt.gemini ("a pony") [] 1] ∧
    (["IMG"] : List String) ≠ [] ∧
    (handler (some ("gk")) none
        { method := "POST", prompt := "a pony", count := 1, referenceImages := [] }
        (fun _ => FetchOutcome.reply 200 ("") (some ("g1")))
        (fun _ => FetchOutcome.networkError)).2 =
      [ProviderAttempt.gemini ("a pony") [] 1] :=
  ⟨by decide, by decide, by decide⟩

/-- The attempt trace of the handler takes one of four shapes: no attempt,
Gemini only, Gemini then OpenAI, or OpenAI only. -/
theorem handler_trace_cases (gk ok : Option String) (req : GatewayRequest)
    (gR oR : Nat → FetchOutcome) :
    (handler gk ok req gR oR).2 = [] ∨
    (handler gk ok req gR oR).2 =
      [ProviderAttempt.gemini req.prompt [] (min req.count 4)] ∨
    (handler gk ok req gR oR).2 =
      [ProviderAttempt.gemini req.prompt [] (min req.count 4),
       ProviderAttempt.openai req.prompt [] (min req.count 4)] ∨
    (handler gk ok req gR oR).2 =
      [ProviderAttempt.openai req.prompt [] (min req.count 4)] := by
  unfold handler
  repeat' split
  all_goals
    first
    | (simp; done)
    | (by_cases hgs : (generateWithGemini (min req.count 4) gR).success = true <;>
        simp [hgs])

/-- Without a truthy Gemini credential the handler never attempts Gemini. -/
theorem handler_trace_no_gemini (gk ok : Option String) (req : GatewayRequest)
    (gR oR : Nat → FetchOutcome) (hg : jsTruthy gk = false) :
    (handler gk ok req gR oR).2 = [] ∨
    (handler gk ok req gR oR).2 =
      [ProviderAttempt.openai req.prompt [] (min req.count 4)] := by
  unfold handler
  simp only [hg]
  repeat' split
  all_goals simp_all

/-- Claim C1 (amended): whenever a Gemini credential is configured and the
request is a valid POST with a truthy prompt, the gateway attempts Gemini
first, before any other provider step, whether or not reference images are
present; no provider attempt ever attaches reference images (the handler
never reads the `referenceImages` field); and with no Gemini credential the
Gemini step is never attempted. -/
theorem handler_gemini_first (gk ok : Option String) (req : GatewayRequest)
    (gR oR : Nat → FetchOutcome)
    (hg : jsTruthy gk = true) (hm : req.method = "POST")
    (hp : strTruthy req.prompt = true) :
    (∃ rest, (handler gk ok req gR oR).2 =
        ProviderAttempt.gemini req.prompt [] (min req.count 4) :: rest) ∧
    (∀ (gk2 ok2 : Option String) (req2 : GatewayRequest)
        (gR2 oR2 : Nat → FetchOutcome),
      ∀ a ∈ (handler gk2 ok2 req2 gR2 oR2).2, a.refs = []) ∧
    (∀ (gk2 ok2 : Option String) (req2 : GatewayRequest)
        (gR2 oR2 : Nat → FetchOutcome),
      jsTruthy gk2 = false →
      ∀ a ∈ (handler gk2 ok2 req2 gR2 oR2).2, a.isGemini = false) := by
  refine ⟨?_, ?_, ?_⟩
  · simp only [handler, hm, hg, hp]
    by_cases hs : (generateWithGemini (min req.count 4) gR).success = true
    · simp [hs]
    · by_cases hok : jsTruthy ok = true
      · simp [hs, hok]
      · simp [hs, hok]
  · intro gk2 ok2 req2 gR2 oR2 a ha
    rcases handler_trace_cases gk2 ok2 req2 gR2 oR2 with h | h | h | h <;> rw [h] at ha
    · simp at ha
    · simp at ha
      subst ha
      rfl
    · simp at ha
      rcases ha with rfl | rfl <;> rfl
    · simp at ha
      subst ha
      rfl
  · intro gk2 ok2 req2 gR2 oR2 hg2 a ha
    rcases handler_trace_no_gemini gk2 ok2 req2 gR2 oR2 hg2 with h | h <;> rw [h] at ha
    · simp at ha
    · simp at ha
      subst ha
      rfl

/-- Claim C1 (amended) witness: with a configured Gemini credential and a
concrete POST request, the trace starts with the Gemini attempt carrying no
attached reference images. -/
theorem handler_gemini_first_witness :
    (jsTruthy (some ("gk")) = true ∧
      (demoReq ["IMG"]).method = "POST" ∧
      strTruthy (demoReq ["IMG"]).prompt = true) ∧
    ((∃ rest, (handler (some ("gk")) none (demoReq ["IMG"])
          (fun _ => FetchOutcome.reply 200 ("") (some ("g1")))
          (fun _ => FetchOutcome.networkError)).2 =
        ProviderAttempt.gemini (demoReq ["IMG"]).prompt []
          (min (demoReq ["IMG"]).count 4) :: rest) ∧
      (∀ (gk2 ok2 : Option String) (req2 : GatewayRequest)
          (gR2 oR2 : Nat → FetchOutcome),
        ∀ a ∈ (handler gk2 ok2 req2 gR2 oR2).2, a.refs = []) ∧
      (∀ (gk2 ok2 : Option String) (req2 : GatewayRequest)
          (gR2 oR2 : Nat → FetchOutcome),
        jsTruthy gk2 = false →
        ∀ a ∈ (handler gk2 ok2 req2 gR2 oR2).2, a.isGemini = false)) :=
  ⟨⟨rfl, rfl, rfl⟩,
   handler_gemini_first (some ("gk")) none (demoReq ["IMG"])
     (fun _ => FetchOutcome.reply 200 ("") (some ("g1")))
     (fun _ => FetchOutcome.networkError) rfl rfl rfl⟩

/-- `put` of a row whose id is fresh appends it. -/
theorem putById_notMem {α : Type} (getId : α → String) (l : List α) (x : α)
    (h : ∀ y ∈ l, getId y ≠ getId x) : putById getId l x = l ++ [x] := by
  have hany : l.any (fun y => getId y == getId x) = false := by
    rw [List.any_eq_false]
    intro y hy
    simp only [beq_iff_eq]
    exact h y hy
  unfold putById
  rw [hany]
  simp

/-- Folding `put` over rows whose ids are fresh and pairwise distinct
appends them in order. -/
theorem foldl_putById_disjoint {α : Type} (getId : α → String) :
    ∀ (L acc : List α), ((acc ++ L).map getId).Nodup →
      L.foldl (putById getId) acc = acc ++ L := by
  intro L
  induction L with
  | nil =>
    intro acc _
    simp
  | cons x L ih =>
    intro acc h
    have hx : ∀ y ∈ acc, getId y ≠ getId x := by
      intro y hy he
      rw [List.map_append, List.nodup_append] at h
      obtain ⟨_, _, hdisj⟩ := h
      exact hdisj (List.mem_map_of_mem getId hy)
        (by rw [he]; exact List.mem_map_of_mem getId (List.mem_cons_self x L))
    have hassoc : (acc ++ [x]) ++ L = acc ++ x :: L := by simp
    show L.foldl (putById getId) (putById getId acc x) = acc ++ x :: L
    rw [putById_notMem getId acc x hx, ih (acc ++ [x]) (by rw [hassoc]; exact h), hassoc]

/-- The exported animal list is a permutation of the stored one. -/
theorem exportAllData_animals_perm (now : String) (store : Store) :
    ((exportAllData now store).animals).Perm store.animals := by
  unfold exportAllData getAllAnimals
  exact (List.reverse_perm _).trans (List.mergeSort_perm _ _)

/-- The exported scene list is a permutation of the stored one. -/
theorem exportAllData_scenes_perm (now : String) (store : Store) :
    ((exportAllData now store).scenes).Perm store.scenes := by
  unfold exportAllData getAllScenes
  exact (List.reverse_perm _).trans (List.mergeSort_perm _ _)

/-- Claim C8: the exported document never carries the credential; importing
an export into an empty store reproduces the animal and scene collections
(as keyed collections, i.e. up to presentation order); and importing any
document never changes the credential already stored. -/
theorem export_import_roundtrip (store : Store) (now : String)
    (hA : (store.animals.map Animal.id).Nodup)
    (hS : (store.scenes.map Scene.id).Nodup) :
    (exportAllData now store).settings.openaiApiKey = none ∧
    ((importAllData emptyStore (exportAllData now store)).animals).Perm store.animals ∧
    ((importAllData emptyStore (exportAllData now store)).scenes).Perm store.scenes ∧
    (∀ (s2 : Store) (d : ExportData),
      (getSettings (importAllData s2 d)).openaiApiKey =
        (getSettings s2).openaiApiKey) := by
  refine ⟨rfl, ?_, ?_, fun s2 d => rfl⟩
  · have hperm := exportAllData_animals_perm now store
    have hnodup : (((exportAllData now store).animals).map Animal.id).Nodup :=
      ((hperm.map Animal.id).nodup_iff).mpr hA
    have hfold := foldl_putById_disjoint Animal.id (exportAllData now store).animals []
      (by simpa using hnodup)
    show ((exportAllData now store).animals.foldl putAnimal emptyStore.animals).Perm
      store.animals
    unfold putAnimal emptyStore
    rw [hfold]
    simpa using hperm
  · have hperm := exportAllData_scenes_perm now store
    have hnodup : (((exportAllData now store).scenes).map Scene.id).Nodup :=
      ((hperm.map Scene.id).nodup_iff).mpr hS
    have hfold := foldl_putById_disjoint Scene.id (exportAllData now store).scenes []
      (by simpa using hnodup)
    show ((exportAllData now store).scenes.foldl putScene emptyStore.scenes).Perm
      store.scenes
    unfold putScene emptyStore
    rw [hfold]
    simpa using hperm

/-- Claim C8 witness: a concrete store with two characters, a scene and a
stored credential round-trips, with the credential absent from the export
and untouched by the import. -/
theorem export_import_roundtrip_witness :
    ((demoStore.animals.map Animal.id).Nodup ∧
      (demoStore.scenes.map Scene.id).Nodup) ∧
    ((exportAllData ("2026-01-01T00:00:00.000Z") demoStore).settings.openaiApiKey = none ∧
      ((importAllData emptyStore
          (exportAllData ("2026-01-01T00:00:00.000Z") demoStore)).animals).Perm
        demoStore.animals ∧
      ((importAllData emptyStore
          (exportAllData ("2026-01-01T00:00:00.000Z") demoStore)).scenes).Perm
        demoStore.scenes ∧
      (∀ (s2 : Store) (d : ExportData),
        (getSettings (importAllData s2 d)).openaiApiKey =
          (getSettings s2).openaiApiKey)) :=
  ⟨⟨by decide, by decide⟩,
   export_import_roundtrip demoStore ("2026-01-01T00:00:00.000Z") (by decide) (by decide)⟩

end AnimalWorld
